import Mathlib

/-!
Verification development for the `SttTtsPlugin` real-time speech bridge
(`src/packages/client-twitter/src/plugins/SttTtsSpacesPlugin.ts`).

The TypeScript source is shallowly embedded below:
* byte buffers (`ArrayBuffer`/`DataView`) become `List Nat` of byte values,
  with little-endian writers mirroring `setUint16`/`setUint32`/`setInt16`;
* the plugin's mutable fields become the record `PluginState`, and
  `onAudioData` becomes a state transformer;
* JavaScript `Map` objects become association lists preserving insertion
  order, matching `Map.get`/`Map.set` semantics;
* asynchronous pipelines are embedded as deterministic functions over
  oracle inputs (transcription text, classifier output, generation output,
  HTTP/process outcomes), each returning a record of the externally
  visible effects;
* the event-loop interleaving relevant to the global `isProcessingAudio`
  flag is embedded as a small-step transition relation whose atomic steps
  are the synchronous segments between `await` points of the source.
-/

/-! ## Byte-level encoding (PCM → WAV), from `convertPcmToWavInMemory` / `writeString` -/

/-- Little-endian bytes of a 16-bit write, as `DataView.setUint16(_, v, true)`. -/
def u16le (v : Nat) : List Nat := [v % 256, v / 256 % 256]

/-- Little-endian bytes of a 32-bit write, as `DataView.setUint32(_, v, true)`. -/
def u32le (v : Nat) : List Nat :=
  [v % 256, v / 256 % 256, v / 65536 % 256, v / 16777216 % 256]

/-- Little-endian bytes of `DataView.setInt16(_, s, true)` (two's complement). -/
def i16le (s : Int) : List Nat := u16le (s % 65536).toNat

/-- `writeString(view, off, text)`: one byte per character (ASCII code). -/
def writeString (text : String) : List Nat := text.data.map Char.toNat

/-- `convertPcmToWavInMemory(pcmData, sampleRate)`: the sequence of disjoint
`DataView` writes at offsets 0,4,8,...,40,44 is embedded as the concatenation
of the written byte runs, in offset order. -/
def convertPcmToWavInMemory (pcmData : List Int) (sampleRate : Nat) : List Nat :=
  let numChannels := 1
  let byteRate := sampleRate * numChannels * 2
  let blockAlign := numChannels * 2
  let dataSize := pcmData.length * 2
  writeString "RIFF" ++                -- offset 0
  u32le (36 + dataSize) ++             -- offset 4: file size - 8
  writeString "WAVE" ++                -- offset 8
  writeString "fmt " ++                -- offset 12
  u32le 16 ++                          -- offset 16: Subchunk1Size
  u16le 1 ++                           -- offset 20: AudioFormat (PCM)
  u16le numChannels ++                 -- offset 22
  u32le sampleRate ++                  -- offset 24
  u32le byteRate ++                    -- offset 28
  u16le blockAlign ++                  -- offset 32
  u16le 16 ++                          -- offset 34: BitsPerSample
  writeString "data" ++                -- offset 36
  u32le dataSize ++                    -- offset 40
  (pcmData.map i16le).flatten          -- offset 44: the samples

/-- Little-endian value of a byte list (the parser side). -/
def bytesToNatLE (bs : List Nat) : Nat := bs.foldr (fun b acc => b + 256 * acc) 0

/-- Parse an unsigned 16-bit little-endian field at `off`. -/
def readU16 (buf : List Nat) (off : Nat) : Nat := bytesToNatLE ((buf.drop off).take 2)

/-- Parse an unsigned 32-bit little-endian field at `off`. -/
def readU32 (buf : List Nat) (off : Nat) : Nat := bytesToNatLE ((buf.drop off).take 4)

/-- Read a 4-byte tag (e.g. "RIFF") at `off`. -/
def readTag (buf : List Nat) (off : Nat) : List Nat := (buf.drop off).take 4

/-- Decode consecutive little-endian signed 16-bit values from bytes. -/
def decodeI16s : List Nat → List Int
  | b0 :: b1 :: rest =>
    (if b0 % 256 + 256 * (b1 % 256) < 32768 then ((b0 % 256 + 256 * (b1 % 256) : Nat) : Int)
     else ((b0 % 256 + 256 * (b1 % 256) : Nat) : Int) - 65536) :: decodeI16s rest
  | _ => []

/-! ## Plugin state and `onAudioData`

Constants from the source: `VOLUME_WINDOW_SIZE = 100`, `SPEAKING_THRESHOLD = 0.05`,
default `silenceThreshold = 50`. -/

/-- Association-list lookup with default, mirroring `map.get(k)` (default when absent). -/
def lookupD {α : Type} : List (String × α) → String → α → α
  | [], _, d => d
  | (k', v') :: rest, k, d => if k' = k then v' else lookupD rest k d

/-- Association-list update, mirroring `map.set(k, v)` (replaces in place, else appends). -/
def setEntry {α : Type} : List (String × α) → String → α → List (String × α)
  | [], k, v => [(k, v)]
  | (k', v') :: rest, k, v =>
    if k' = k then (k, v) :: rest else (k', v') :: setEntry rest k v

/-- The mutable fields of `SttTtsPlugin` touched by `onAudioData`.
`ttsAbortCtrl = none` models `ttsAbortController === null`; `some b` models a
live controller whose `signal.aborted` is `b`. -/
structure PluginState where
  isProcessingAudio : Bool
  isSpeaking : Bool
  silenceThreshold : Nat
  pcmBuffers : List (String × List (List Int))
  userSpeakingTimer : Option String
  volumeBuffers : List (String × List (Option ℚ))
  ttsAbortCtrl : Option Bool
deriving Repr, DecidableEq

/-- Peak absolute amplitude of a frame: the `maxVal` loop of `onAudioData`
(lines 149-153), starting from 0. -/
def peakAbs (samples : List Int) : Nat := samples.foldl (fun m v => max m v.natAbs) 0

/-- `Math.abs` applied to an element of an `Int16Array` by
`Int16Array.prototype.map` (line 211): the callback result is coerced back
into Int16 when stored, so `Math.abs(-32768) = 32768` wraps to `-32768`;
every other in-range value is unchanged. -/
def int16Abs (v : Int) : Int := (|v| + 32768) % 65536 - 32768

/-- `Math.max(...arr)` over a list of Int16 values: `-Infinity` (modelled as
`none`) when the list is empty. -/
def jsMaxList (l : List Int) : Option Int :=
  l.foldl
    (fun m v =>
      match m with
      | none => some v
      | some x => some (max x v))
    none

/-- The `maxAmplitude` the interruption branch pushes (lines 206-211):
`Math.max(...samples.map(Math.abs)) / 32768`, where `samples` reinterprets
the Int16 frame at HALF its length
(`new Int16Array(buffer, byteOffset, samples.length / 2)`), the `map` wraps
`Math.abs` through Int16 (`int16Abs`), and the max of an empty half (frame
shorter than two samples) is `-Infinity` (`none`). -/
def maxAmplitude (frame : List Int) : Option ℚ :=
  (jsMaxList ((frame.take (frame.length / 2)).map int16Abs)).map (fun p => (p : ℚ) / 32768)

/-- Floating-point addition restricted to the values arising in the window
sum: finite rationals and `-Infinity` (`none`), which absorbs. -/
def jsAdd : Option ℚ → Option ℚ → Option ℚ
  | some a, some b => some (a + b)
  | _, _ => none

/-- The volume-window update of the interruption branch (lines 212-216):
push `maxAmplitude`, then trim to `VOLUME_WINDOW_SIZE = 100` by `shift()`
(drop oldest). -/
def newVolumeWindow (win : List (Option ℚ)) (frame : List Int) : List (Option ℚ) :=
  let pushed := win ++ [maxAmplitude frame]
  if 100 < pushed.length then pushed.drop 1 else pushed

/-- `avgVolume` (lines 217-219): the window sum
(`reduce((sum, v) => sum + v, 0)`) divided by the FIXED capacity 100,
regardless of how many entries the window holds; `-Infinity` if any entry is
`-Infinity`. -/
def avgVolume (win : List (Option ℚ)) : Option ℚ :=
  (win.foldl jsAdd (some 0)).map (fun x => x / 100)

/-- `avgVolume > SPEAKING_THRESHOLD` (line 221): false when the average is
`-Infinity`. -/
def exceedsThreshold (avg : Option ℚ) : Bool :=
  match avg with
  | none => false
  | some x => decide ((1 : ℚ) / 20 < x)

/-- Append a frame to a speaker's PCM buffer (lines 167-176). -/
def pushChunk (m : List (String × List (List Int))) (u : String) (f : List Int) :
    List (String × List (List Int)) :=
  setEntry m u (lookupD m u [] ++ [f])

/-- `onAudioData(data)` as a state transformer (lines 146-229):
drop input while `isProcessingAudio`; drop frames below the silence
threshold; otherwise clear the pending silence timer and append the frame to
the speaker's buffer; then either (not speaking) restart the silence timer,
or (speaking) run the interruption check: push the code's `maxAmplitude`
(Int16-wrapped peak of the first half of the frame; `-Infinity` when that
half is empty), and if the windowed average exceeds
`SPEAKING_THRESHOLD = 0.05`, clear the window and, if a TTS abort controller
is live, abort it and clear `isSpeaking`. -/
def onAudioData (s : PluginState) (userId : String) (frame : List Int) : PluginState :=
  if s.isProcessingAudio then s
  else if peakAbs frame < s.silenceThreshold then s
  else
    let s1 : PluginState := { s with userSpeakingTimer := none }
    let s2 : PluginState := { s1 with pcmBuffers := pushChunk s1.pcmBuffers userId frame }
    if !s2.isSpeaking then
      { s2 with userSpeakingTimer := some userId }
    else
      let win := lookupD s2.volumeBuffers userId []
      let win2 := newVolumeWindow win frame
      if exceedsThreshold (avgVolume win2) then
        let s3 : PluginState := { s2 with volumeBuffers := setEntry s2.volumeBuffers userId [] }
        match s3.ttsAbortCtrl with
        | some _ => { s3 with ttsAbortCtrl := some true, isSpeaking := false }
        | none => s3
      else { s2 with volumeBuffers := setEntry s2.volumeBuffers userId win2 }

/-- Modelled from the spec (claim C1's trigger, for comparison with the code):
push the WHOLE frame's peak absolute amplitude, normalized to [0,1], into the
window. The code instead pushes the Int16-wrapped peak of the first half of
the frame (see `maxAmplitude`). -/
def specC1Window (win : List (Option ℚ)) (frame : List Int) : List (Option ℚ) :=
  let pushed := win ++ [some ((peakAbs frame : ℚ) / 32768)]
  if 100 < pushed.length then pushed.drop 1 else pushed

/-! ## `streamToJanus` (lines 756-779) -/

/-- Whether the abort signal is observed aborted at frame index `idx`:
`abortAt = some j` models an interruption that aborts the shared controller
while the stream sleeps between frame `j-1` and frame `j`. -/
def abortedB (abortAt : Option Nat) (idx : Nat) : Bool :=
  match abortAt with
  | some j => decide (j ≤ idx)
  | none => false

/-- The `streamToJanus` loop: while a full frame of `fs` samples remains,
check the abort signal, then push `samples.take fs` and advance by `fs`.
`fuel` only bounds the recursion (the JavaScript loop would not terminate
for `FRAME_SIZE = 0`); `fuel = samples.length` suffices for `0 < fs`. -/
def streamLoop : Nat → List Int → Nat → Option Nat → Nat → List (List Int)
  | 0, _, _, _, _ => []
  | fuel + 1, samples, fs, abortAt, idx =>
    if 0 < fs ∧ fs ≤ samples.length then
      if abortedB abortAt idx then []
      else samples.take fs :: streamLoop fuel (samples.drop fs) fs abortAt (idx + 1)
    else []

/-- Frames pushed to `janus.pushLocalAudio` by one `streamToJanus(samples, rate)`
call whose abort signal becomes aborted before frame `abortAt` (if `some`). -/
def streamToJanus (samples : List Int) (fs : Nat) (abortAt : Option Nat) : List (List Int) :=
  streamLoop samples.length samples fs abortAt 0

/-- `FRAME_SIZE = Math.floor(sampleRate * 0.01)` (10 ms frames). -/
def FRAME_SIZE (sampleRate : Nat) : Nat := sampleRate / 100

/-! ## Response pipeline (`_shouldIgnore`, `_shouldRespond`, `handleUserMessage`, `processAudio`) -/

/-- `String.prototype.toLowerCase()`. -/
def jsToLower (s : String) : String := ⟨s.data.map Char.toLower⟩

/-- `String.prototype.trim()`. -/
def jsTrim (s : String) : String :=
  ⟨((s.data.dropWhile Char.isWhitespace).reverse.dropWhile Char.isWhitespace).reverse⟩

/-- Needle-begins-hay test (helper for substring search). -/
def beginsWith : List Char → List Char → Bool
  | [], _ => true
  | _ :: _, [] => false
  | a :: as, b :: bs => a == b && beginsWith as bs

/-- Substring occurrence of `needle` anywhere in `hay`. -/
def containsSub (needle : List Char) : List Char → Bool
  | [] => beginsWith needle []
  | a :: t => beginsWith needle (a :: t) || containsSub needle t

/-- `hay.includes(needle)`. -/
def jsIncludes (hay needle : String) : Bool := containsSub needle.data hay.data

/-- The fixed block list of `_shouldIgnore` (lines 590-612). -/
def loseInterestWords : List String :=
  ["shut up", "stop", "dont talk", "silence", "stop talking", "be quiet", "hush",
   "stfu", "stupid bot", "dumb bot",
   "fuck", "shit", "damn", "suck", "dick", "cock", "sex", "sexy"]

/-- The short filler-word list of `_shouldIgnore` (line 622). -/
def ignoreWords : List String := ["k", "ok", "bye", "lol", "nm", "uh"]

/-- `_shouldIgnore(message)` (lines 583-633): drop if shorter than 3 chars;
drop if shorter than 50 chars and containing a block-list word (lowercased);
drop if shorter than 8 chars and containing a filler word (lowercased). -/
def _shouldIgnore (text : String) : Bool :=
  if text.length < 3 then true
  else if text.length < 50 &&
      loseInterestWords.any (fun w => jsIncludes (jsToLower text) w) then true
  else if text.length < 8 &&
      ignoreWords.any (fun w => jsIncludes (jsToLower text) w) then true
  else false

/-- `_shouldRespond(message, state)` (lines 635-675), with the
`generateShouldRespond` model call replaced by its oracle string `response`.
Returns the decision and whether the external classifier was invoked. -/
def _shouldRespond (message characterName response : String) : Bool × Bool :=
  let lowerMessage := jsToLower message
  let charName := jsToLower characterName
  if jsIncludes lowerMessage charName then (true, false)
  else if response = "RESPOND" then (true, true)
  else if response = "IGNORE" then (false, true)
  else if response = "STOP" then (false, true)
  else (false, true)

/-- Externally visible effects of one `handleUserMessage` call. -/
structure HumEffects where
  inboundMemoryCreated : Bool
  ignoreEvaluated : Bool
  respondEvaluated : Bool
  classifierCalled : Bool
  generateCalled : Bool
  replyMemoryCreated : Bool
  reply : String
deriving Repr, DecidableEq

/-- `handleUserMessage(userText, userId)` (lines 467-550): persist the inbound
turn, run `_shouldIgnore` (empty reply if ignored), run `_shouldRespond`
(empty reply unless it decides to respond), otherwise generate (oracle
`generatedText`), trim, and persist the reply memory when non-empty. -/
def handleUserMessage (userText characterName classifierResponse generatedText : String) :
    HumEffects :=
  let base : HumEffects :=
    { inboundMemoryCreated := true, ignoreEvaluated := true, respondEvaluated := false,
      classifierCalled := false, generateCalled := false, replyMemoryCreated := false,
      reply := "" }
  if _shouldIgnore userText then base
  else
    let sr := _shouldRespond userText characterName classifierResponse
    let base2 : HumEffects := { base with respondEvaluated := true, classifierCalled := sr.2 }
    if !sr.1 then base2
    else
      let reply := jsTrim generatedText
      { base2 with generateCalled := true, replyMemoryCreated := reply != "", reply := reply }

/-- Externally visible effects of one `processAudio` flush. -/
structure PaEffects where
  flushedChunks : Nat
  wavLen : Nat
  transcribeCalled : Bool
  hum : Option HumEffects
  speakTextCalled : Bool
deriving Repr, DecidableEq

/-- `processAudio(userId)` (lines 286-409) after the `isProcessingAudio` guard
has been passed: flush the buffered chunks (empty buffer: return), merge them,
convert to WAV, transcribe (oracle `sttText`); an empty or whitespace-only
transcription returns with no downstream call (`!sttText || !sttText.trim()`);
otherwise run `handleUserMessage` and, if the reply is non-empty, `speakText`.
All thrown errors are caught and logged by the source's try/catch, so every
path returns normally. -/
def processAudio (chunks : List (List Int))
    (sttText characterName classifierResponse generatedText : String) : PaEffects :=
  if chunks.isEmpty then
    { flushedChunks := 0, wavLen := 0, transcribeCalled := false, hum := none,
      speakTextCalled := false }
  else
    let merged := chunks.flatten
    let wav := convertPcmToWavInMemory merged 48000
    if jsTrim sttText = "" then
      { flushedChunks := chunks.length, wavLen := wav.length, transcribeCalled := true,
        hum := none, speakTextCalled := false }
    else
      let h := handleUserMessage sttText characterName classifierResponse generatedText
      if jsTrim h.reply = "" then
        { flushedChunks := chunks.length, wavLen := wav.length, transcribeCalled := true,
          hum := some h, speakTextCalled := false }
      else
        { flushedChunks := chunks.length, wavLen := wav.length, transcribeCalled := true,
          hum := some h, speakTextCalled := true }

/-! ## TTS queue (`speakText`, `processTtsQueue`, `elevenLabsTts`, `convertMp3ToPcm`) -/

/-- TTS queue state for the sequential-enqueue scenario.  `current` is the
item the single drain task is processing; `drainsStarted` counts
`processTtsQueue()` launches. -/
structure C5St where
  queue : List String
  speaking : Bool
  current : Option String
  played : List String
  drainsStarted : Nat
deriving Repr, DecidableEq

/-- Event-loop events of the queue scenario: `enq t` is a `speakText(t)` call
(lines 414-425: push; if not speaking, set `isSpeaking` and launch
`processTtsQueue`, which synchronously shifts the first item and suspends in
synthesis); `itemDone` is the drain task finishing synthesis, transcoding and
streaming of its current item and synchronously moving to the next
(lines 430-462). -/
inductive C5Ev
  | enq (t : String)
  | itemDone
deriving Repr, DecidableEq

/-- One event-loop step of the TTS queue scenario. -/
def c5Step (s : C5St) (e : C5Ev) : C5St :=
  match e with
  | .enq t =>
    let q := s.queue ++ [t]
    if s.speaking then { s with queue := q }
    else
      match q with
      | t' :: rest =>
        { s with queue := rest, speaking := true, current := some t',
                 drainsStarted := s.drainsStarted + 1 }
      | [] => { s with speaking := true, drainsStarted := s.drainsStarted + 1 }
  | .itemDone =>
    match s.current with
    | none => s
    | some t =>
      let pl := s.played ++ [t]
      match s.queue with
      | t' :: rest => { s with played := pl, current := some t', queue := rest }
      | [] => { s with played := pl, current := none, queue := [], speaking := false }

/-- The initial IDLE queue state. -/
def c5Init : C5St := ⟨[], false, none, [], 0⟩

/-- Claim C5's scenario: enqueue "a", "b", "c" sequentially, then the drain
task completes three items. -/
def c5Events : List C5Ev := [.enq "a", .enq "b", .enq "c", .itemDone, .itemDone, .itemDone]

/-- All states traversed in the scenario. -/
def c5Trace : List C5St := c5Events.scanl c5Step c5Init

/-- The final state of the scenario. -/
def c5Final : C5St := c5Events.foldl c5Step c5Init

/-- Per-item oracle for one drain iteration: whether the ElevenLabs API key is
configured, whether the synthesis HTTP call succeeds, the ffmpeg exit code,
and whether the abort signal is observed at the two cancellation checks. -/
structure ItemEnv where
  apiKeyPresent : Bool
  httpOk : Bool
  ffmpegExitCode : Nat
  abortedBeforeStream : Bool
  abortedAfterStream : Bool
deriving Repr, DecidableEq

/-- Oracle for items beyond the supplied list: everything succeeds. -/
def defaultItemEnv : ItemEnv := ⟨true, true, 0, false, false⟩

/-- `elevenLabsTts(text)` (lines 680-705): throws when no API key is
configured, throws on a non-ok HTTP response, else returns the MP3 bytes. -/
def elevenLabsTts (apiKeyPresent httpOk : Bool) : Except String Unit :=
  if !apiKeyPresent then Except.error "[SttTtsPlugin] No ElevenLabs API key"
  else if !httpOk then Except.error "[SttTtsPlugin] ElevenLabs TTS error"
  else Except.ok ()

/-- `convertMp3ToPcm` (lines 710-750): rejects when ffmpeg exits non-zero. -/
def convertMp3ToPcm (exitCode : Nat) : Except String Unit :=
  if exitCode != 0 then Except.error "ffmpeg error" else Except.ok ()

/-- Whether one drain iteration's synthesis and transcoding both succeed. -/
def itemSucceeds (e : ItemEnv) : Bool :=
  e.apiKeyPresent && e.httpOk && (e.ffmpegExitCode == 0)

/-- Result of one `processTtsQueue` drain: the items attempted (dequeued and
processed, in order), the items fully streamed, and whether the loop ran to
exhaustion and cleared `isSpeaking` (line 461; the abort `return`s skip it). -/
structure DrainResult where
  attempted : List String
  played : List String
  speakingCleared : Bool
deriving Repr, DecidableEq

/-- `processTtsQueue()` (lines 430-462): dequeue one text, create a fresh
abort controller, try synthesis then transcoding (a thrown error is caught,
logged, and the loop continues with the next item), check the abort signal
before and after streaming (aborted: `return` without clearing `isSpeaking`),
and clear `isSpeaking` only when the queue is exhausted. -/
def processTtsQueue : List String → List ItemEnv → DrainResult
  | [], _ => { attempted := [], played := [], speakingCleared := true }
  | t :: rest, envs =>
    let env := envs.headD defaultItemEnv
    let step : Except String Unit :=
      match elevenLabsTts env.apiKeyPresent env.httpOk with
      | Except.error e => Except.error e
      | Except.ok _ => convertMp3ToPcm env.ffmpegExitCode
    match step with
    | Except.error _ =>
      let r := processTtsQueue rest envs.tail
      { attempted := t :: r.attempted, played := r.played, speakingCleared := r.speakingCleared }
    | Except.ok _ =>
      if env.abortedBeforeStream then
        { attempted := [t], played := [], speakingCleared := false }
      else if env.abortedAfterStream then
        { attempted := [t], played := [t], speakingCleared := false }
      else
        let r := processTtsQueue rest envs.tail
        { attempted := t :: r.attempted, played := t :: r.played,
          speakingCleared := r.speakingCleared }

/-- The items a drain is expected to fully play: the successful ones. -/
def playedExpected : List String → List ItemEnv → List String
  | [], _ => []
  | t :: rest, envs =>
    (if itemSucceeds (envs.headD defaultItemEnv) then [t] else []) ++
      playedExpected rest envs.tail

/-! ## Event-loop interleaving model for the global processing flag (claim C2)

Atomic steps are the synchronous segments between `await` points of
`onAudioData`, `processAudio`, `speakText` and `processTtsQueue`. -/

/-- Phase of an in-flight `processAudio` task that passed its guard:
awaiting the transcription service, or awaiting `handleUserMessage`. -/
inductive PAPhase
  | transcribing
  | responding
deriving Repr, DecidableEq

/-- Phase of the drain task of `processTtsQueue` for its current item:
awaiting `elevenLabsTts`, awaiting `convertMp3ToPcm`, or streaming frames. -/
inductive DrainPhase
  | idle
  | synthesizing (item : Nat)
  | transcoding (item : Nat)
  | streaming (item : Nat)
deriving Repr, DecidableEq

/-- Global event-loop state: the two flags, the pending silence timer, the
shared abort controller, the in-flight `processAudio` tasks (utterance id and
phase), the drain task, and the TTS queue of utterance ids. -/
structure C2Sys where
  procFlag : Bool
  speakFlag : Bool
  timerPending : Bool
  tokenLive : Bool
  tokenAborted : Bool
  paTasks : List (Nat × PAPhase)
  drain : DrainPhase
  ttsQueue : List Nat
  nextId : Nat
deriving Repr, DecidableEq

/-- `speakText(response)` called from `processAudio` (lines 392-395 then
414-425): push the utterance onto the queue; if not speaking, set
`isSpeaking` and launch `processTtsQueue`, whose first iteration synchronously
shifts the item and creates a fresh abort controller before suspending in
synthesis. -/
def speakTextLaunch (s : C2Sys) (i : Nat) : C2Sys :=
  let q := s.ttsQueue ++ [i]
  if s.speakFlag then { s with ttsQueue := q }
  else
    match s.drain, q with
    | DrainPhase.idle, t :: rest =>
      { s with ttsQueue := rest, speakFlag := true, drain := DrainPhase.synthesizing t,
               tokenLive := true, tokenAborted := false }
    | _, _ => { s with ttsQueue := q, speakFlag := true }

/-- One atomic event-loop step. -/
inductive C2Step : C2Sys → C2Sys → Prop
  /-- A non-silent frame arrives while idle and not processing
  (lines 146-198): it is buffered and the silence timer is (re)started. -/
  | frameTimer (s : C2Sys) (h1 : s.procFlag = false) (h2 : s.speakFlag = false) :
      C2Step s { s with timerPending := true }
  /-- A loud frame arrives while speaking, the rolling average exceeds the
  threshold and a controller is live (lines 199-228): abort it and clear
  `isSpeaking`. -/
  | bargeIn (s : C2Sys) (h1 : s.procFlag = false) (h2 : s.speakFlag = true)
      (h3 : s.tokenLive = true) :
      C2Step s { s with tokenAborted := true, speakFlag := false }
  /-- The silence timer fires and `processAudio` runs its guard synchronously
  (lines 186-198, 292-295): if `isProcessingAudio` is set the flush dies. -/
  | timerFireBusy (s : C2Sys) (h1 : s.timerPending = true) (h2 : s.procFlag = true) :
      C2Step s { s with timerPending := false }
  /-- The silence timer fires while not processing: the guard passes, the flag
  is set, and the task suspends awaiting the transcription service. -/
  | timerFireFlush (s : C2Sys) (h1 : s.timerPending = true) (h2 : s.procFlag = false) :
      C2Step s { s with timerPending := false, procFlag := true,
                        paTasks := s.paTasks ++ [(s.nextId, PAPhase.transcribing)],
                        nextId := s.nextId + 1 }
  /-- Transcription returns empty text (lines 359-365): return, clearing the
  flag in `finally`. -/
  | transcribeEmpty (s : C2Sys) (pre post : List (Nat × PAPhase)) (i : Nat)
      (h : s.paTasks = pre ++ (i, PAPhase.transcribing) :: post) :
      C2Step s { s with paTasks := pre ++ post, procFlag := false }
  /-- Transcription returns text; the task suspends in `handleUserMessage`. -/
  | transcribeDone (s : C2Sys) (pre post : List (Nat × PAPhase)) (i : Nat)
      (h : s.paTasks = pre ++ (i, PAPhase.transcribing) :: post) :
      C2Step s { s with paTasks := pre ++ (i, PAPhase.responding) :: post }
  /-- `handleUserMessage` returns an empty reply (lines 382-388): return,
  clearing the flag in `finally`. -/
  | respondEmpty (s : C2Sys) (pre post : List (Nat × PAPhase)) (i : Nat)
      (h : s.paTasks = pre ++ (i, PAPhase.responding) :: post) :
      C2Step s { s with paTasks := pre ++ post, procFlag := false }
  /-- `handleUserMessage` returns a reply (lines 392-395): the source clears
  `isProcessingAudio` BEFORE `speakText(response)`; the `finally` clears it
  again; playback proceeds in the background. -/
  | respondDone (s : C2Sys) (pre post : List (Nat × PAPhase)) (i : Nat)
      (h : s.paTasks = pre ++ (i, PAPhase.responding) :: post) :
      C2Step s (speakTextLaunch { s with paTasks := pre ++ post, procFlag := false } i)
  /-- `elevenLabsTts` resolves; the drain suspends in `convertMp3ToPcm`. -/
  | synthDone (s : C2Sys) (t : Nat) (h : s.drain = DrainPhase.synthesizing t) :
      C2Step s { s with drain := DrainPhase.transcoding t }
  /-- Transcoding resolves but the signal was aborted (lines 441-446):
  `return`, nulling the controller in `finally`. -/
  | transcodeAborted (s : C2Sys) (t : Nat) (h : s.drain = DrainPhase.transcoding t)
      (ha : s.tokenAborted = true) :
      C2Step s { s with drain := DrainPhase.idle, tokenLive := false }
  /-- Transcoding resolves with no abort; the drain streams frames. -/
  | transcodeClean (s : C2Sys) (t : Nat) (h : s.drain = DrainPhase.transcoding t)
      (ha : s.tokenAborted = false) :
      C2Step s { s with drain := DrainPhase.streaming t }
  /-- The abort signal is observed during streaming (lines 768-771):
  `streamToJanus` returns early and the drain `return`s. -/
  | streamAborted (s : C2Sys) (t : Nat) (h : s.drain = DrainPhase.streaming t)
      (ha : s.tokenAborted = true) :
      C2Step s { s with drain := DrainPhase.idle, tokenLive := false }
  /-- Streaming completes and another item is queued: the loop shifts it and
  creates a fresh controller. -/
  | streamDoneNext (s : C2Sys) (t t' : Nat) (rest : List Nat)
      (h : s.drain = DrainPhase.streaming t) (ha : s.tokenAborted = false)
      (hq : s.ttsQueue = t' :: rest) :
      C2Step s { s with drain := DrainPhase.synthesizing t', ttsQueue := rest,
                        tokenLive := true, tokenAborted := false }
  /-- Streaming completes with an empty queue (line 461): the drain exits and
  clears `isSpeaking`. -/
  | streamDoneIdle (s : C2Sys) (t : Nat) (h : s.drain = DrainPhase.streaming t)
      (ha : s.tokenAborted = false) (hq : s.ttsQueue = []) :
      C2Step s { s with drain := DrainPhase.idle, speakFlag := false, tokenLive := false }

/-- The idle initial state. -/
def c2Init : C2Sys :=
  { procFlag := false, speakFlag := false, timerPending := false, tokenLive := false,
    tokenAborted := false, paTasks := [], drain := DrainPhase.idle, ttsQueue := [],
    nextId := 0 }

/-- Reachability from the initial state. -/
def C2Reachable (s : C2Sys) : Prop := Relation.ReflTransGen C2Step c2Init s

/-- A reachable state in which utterance 1 is being transcribed while
utterance 0 is still being synthesized (reached after a barge-in that cleared
the flags while the drain was still awaiting `elevenLabsTts`). -/
def c2Bad : C2Sys :=
  { procFlag := true, speakFlag := false, timerPending := false, tokenLive := true,
    tokenAborted := true, paTasks := [(1, PAPhase.transcribing)],
    drain := DrainPhase.synthesizing 0, ttsQueue := [], nextId := 2 }

/-! ## Concrete states for counterexamples and witnesses -/

/-- Counterexample state for claim C1: playback in progress (speaking, live
unaborted controller) and a volume window of five near-full peaks, whose sum
is just below the interruption bound `5 = 0.05 * 100`. -/
def c1CexState : PluginState :=
  { isProcessingAudio := false, isSpeaking := true, silenceThreshold := 50,
    pcmBuffers := [], userSpeakingTimer := none,
    volumeBuffers := [("spk", [some ((32767 : ℚ) / 32768), some ((32767 : ℚ) / 32768),
      some ((32767 : ℚ) / 32768), some ((32767 : ℚ) / 32768), some ((32767 : ℚ) / 32768)])],
    ttsAbortCtrl := some false }

/-- Witness state for claim C1's amended theorem: same playback-in-progress
shape with the same prefilled window. -/
def c1WitState : PluginState :=
  { isProcessingAudio := false, isSpeaking := true, silenceThreshold := 50,
    pcmBuffers := [], userSpeakingTimer := none,
    volumeBuffers := [("spk", [some ((32767 : ℚ) / 32768), some ((32767 : ℚ) / 32768),
      some ((32767 : ℚ) / 32768), some ((32767 : ℚ) / 32768), some ((32767 : ℚ) / 32768)])],
    ttsAbortCtrl := some false }

/-- Counterexample state for claim C3: the system is speaking, with empty
buffers and windows. -/
def c3CexState : PluginState :=
  { isProcessingAudio := false, isSpeaking := true, silenceThreshold := 50,
    pcmBuffers := [], userSpeakingTimer := none, volumeBuffers := [],
    ttsAbortCtrl := some false }

/-- Witness state for claim C3's amended theorem: not speaking, idle. -/
def c3WitState : PluginState :=
  { isProcessingAudio := false, isSpeaking := false, silenceThreshold := 50,
    pcmBuffers := [], userSpeakingTimer := none, volumeBuffers := [],
    ttsAbortCtrl := none }

/-- Witness state for claim C6: an idle state with the default silence
threshold 50 and a pending timer plus a non-empty buffer, so the theorem's
conclusion (the state is untouched) is not vacuous. -/
def c6WitState : PluginState :=
  { isProcessingAudio := false, isSpeaking := false, silenceThreshold := 50,
    pcmBuffers := [("spk", [[700]])], userSpeakingTimer := some "spk",
    volumeBuffers := [], ttsAbortCtrl := none }

/-- Witness state for claim C2's amended theorem: a state with the processing
flag set, to exercise the input-ignored conjunct. -/
def c2WitPluginState : PluginState :=
  { isProcessingAudio := true, isSpeaking := false, silenceThreshold := 50,
    pcmBuffers := [], userSpeakingTimer := none, volumeBuffers := [],
    ttsAbortCtrl := none }

/-!
# Theorems

Helper lemmas first, then one theorem per claim (with witness or
counterexample theorems where required).
-/

/-! ## WAV layout helpers -/

theorem wav_flat (pcmData : List Int) (sampleRate : Nat) :
    convertPcmToWavInMemory pcmData sampleRate =
    82 :: 73 :: 70 :: 70 ::
    ((36 + pcmData.length * 2) % 256) :: ((36 + pcmData.length * 2) / 256 % 256) ::
    ((36 + pcmData.length * 2) / 65536 % 256) ::
    ((36 + pcmData.length * 2) / 16777216 % 256) ::
    87 :: 65 :: 86 :: 69 ::
    102 :: 109 :: 116 :: 32 ::
    16 :: 0 :: 0 :: 0 ::
    1 :: 0 ::
    1 :: 0 ::
    (sampleRate % 256) :: (sampleRate / 256 % 256) ::
    (sampleRate / 65536 % 256) :: (sampleRate / 16777216 % 256) ::
    (sampleRate * 2 % 256) :: (sampleRate * 2 / 256 % 256) ::
    (sampleRate * 2 / 65536 % 256) :: (sampleRate * 2 / 16777216 % 256) ::
    2 :: 0 ::
    16 :: 0 ::
    100 :: 97 :: 116 :: 97 ::
    ((pcmData.length * 2) % 256) :: ((pcmData.length * 2) / 256 % 256) ::
    ((pcmData.length * 2) / 65536 % 256) :: ((pcmData.length * 2) / 16777216 % 256) ::
    (pcmData.map i16le).flatten := by
  simp [convertPcmToWavInMemory, u32le, u16le, writeString, Nat.mul_one]

theorem flatten_i16le_length (l : List Int) : (l.map i16le).flatten.length = l.length * 2 := by
  induction l with
  | nil => simp
  | cons a t ih => simp [i16le, u16le, ih]; omega

theorem decode_roundtrip (l : List Int) (h : ∀ s ∈ l, -32768 ≤ s ∧ s < 32768) :
    decodeI16s (l.map i16le).flatten = l := by
  induction l with
  | nil => simp [decodeI16s]
  | cons a t ih =>
    have ha := h a (by simp)
    have ht : ∀ s ∈ t, -32768 ≤ s ∧ s < 32768 := fun s hs => h s (by simp [hs])
    simp only [List.map_cons, List.flatten_cons, i16le, u16le, List.cons_append,
      List.nil_append]
    rw [decodeI16s]
    rw [ih ht]
    congr 1
    split_ifs with hlt <;> omega

/-- Claim C4 (confirmed): for every Int16 PCM sample list and in-range sample
rate, `convertPcmToWavInMemory` returns a buffer of exactly `44 + 2 * N`
bytes whose little-endian header carries the RIFF/WAVE/fmt/data markers,
AudioFormat 1, one channel, the sample rate, byte rate `sampleRate * 2`,
block align 2, 16 bits per sample, a data-chunk size of exactly `N * 2`
bytes, followed by the `N` samples in order as little-endian 16-bit values
(which decode back to the input). -/
theorem c4_wav_layout (pcmData : List Int) (sampleRate : Nat)
    (hr : sampleRate < 2147483648) (hn : pcmData.length * 2 + 36 < 4294967296)
    (hs : ∀ s ∈ pcmData, -32768 ≤ s ∧ s < 32768) :
    (convertPcmToWavInMemory pcmData sampleRate).length = 44 + 2 * pcmData.length
    ∧ readTag (convertPcmToWavInMemory pcmData sampleRate) 0 = [82, 73, 70, 70]
    ∧ readTag (convertPcmToWavInMemory pcmData sampleRate) 8 = [87, 65, 86, 69]
    ∧ readTag (convertPcmToWavInMemory pcmData sampleRate) 12 = [102, 109, 116, 32]
    ∧ readU16 (convertPcmToWavInMemory pcmData sampleRate) 20 = 1
    ∧ readU16 (convertPcmToWavInMemory pcmData sampleRate) 22 = 1
    ∧ readU32 (convertPcmToWavInMemory pcmData sampleRate) 24 = sampleRate
    ∧ readU32 (convertPcmToWavInMemory pcmData sampleRate) 28 = sampleRate * 2
    ∧ readU16 (convertPcmToWavInMemory pcmData sampleRate) 32 = 2
    ∧ readU16 (convertPcmToWavInMemory pcmData sampleRate) 34 = 16
    ∧ readTag (convertPcmToWavInMemory pcmData sampleRate) 36 = [100, 97, 116, 97]
    ∧ readU32 (convertPcmToWavInMemory pcmData sampleRate) 40 = pcmData.length * 2
    ∧ (convertPcmToWavInMemory pcmData sampleRate).drop 44 = (pcmData.map i16le).flatten
    ∧ decodeI16s ((convertPcmToWavInMemory pcmData sampleRate).drop 44) = pcmData := by
  rw [wav_flat]
  refine ⟨?_, ?_, ?_, ?_, ?_, ?_, ?_, ?_, ?_, ?_, ?_, ?_, ?_, ?_⟩
  · simp only [List.length_cons, flatten_i16le_length]; omega
  · simp [readTag]
  · simp [readTag]
  · simp [readTag]
  · simp [readU16, bytesToNatLE]
  · simp [readU16, bytesToNatLE]
  · simp [readU32, bytesToNatLE]; omega
  · simp [readU32, bytesToNatLE]; omega
  · simp [readU16, bytesToNatLE]
  · simp [readU16, bytesToNatLE]
  · simp [readTag]
  · simp [readU32, bytesToNatLE]; omega
  · simp
  · simp; exact decode_roundtrip pcmData hs

/-- Witness for C4 at the concrete input `[5, -3, 1000]`, 48000 Hz. -/
theorem c4_wav_layout_witness :
    (48000 < 2147483648
      ∧ ([5, -3, 1000] : List Int).length * 2 + 36 < 4294967296
      ∧ (∀ s ∈ ([5, -3, 1000] : List Int), -32768 ≤ s ∧ s < 32768))
    ∧ ((convertPcmToWavInMemory [5, -3, 1000] 48000).length = 44 + 2 * ([5, -3, 1000] : List Int).length
      ∧ readTag (convertPcmToWavInMemory [5, -3, 1000] 48000) 0 = [82, 73, 70, 70]
      ∧ readTag (convertPcmToWavInMemory [5, -3, 1000] 48000) 8 = [87, 65, 86, 69]
      ∧ readTag (convertPcmToWavInMemory [5, -3, 1000] 48000) 12 = [102, 109, 116, 32]
      ∧ readU16 (convertPcmToWavInMemory [5, -3, 1000] 48000) 20 = 1
      ∧ readU16 (convertPcmToWavInMemory [5, -3, 1000] 48000) 22 = 1
      ∧ readU32 (convertPcmToWavInMemory [5, -3, 1000] 48000) 24 = 48000
      ∧ readU32 (convertPcmToWavInMemory [5, -3, 1000] 48000) 28 = 48000 * 2
      ∧ readU16 (convertPcmToWavInMemory [5, -3, 1000] 48000) 32 = 2
      ∧ readU16 (convertPcmToWavInMemory [5, -3, 1000] 48000) 34 = 16
      ∧ readTag (convertPcmToWavInMemory [5, -3, 1000] 48000) 36 = [100, 97, 116, 97]
      ∧ readU32 (convertPcmToWavInMemory [5, -3, 1000] 48000) 40 = ([5, -3, 1000] : List Int).length * 2
      ∧ (convertPcmToWavInMemory [5, -3, 1000] 48000).drop 44 = (([5, -3, 1000] : List Int).map i16le).flatten
      ∧ decodeI16s ((convertPcmToWavInMemory [5, -3, 1000] 48000).drop 44) = [5, -3, 1000]) :=
  ⟨⟨by decide, by decide, by decide⟩,
    c4_wav_layout [5, -3, 1000] 48000 (by decide) (by decide) (by decide)⟩

/-! ## Association-list and `streamToJanus` helpers -/

theorem lookupD_setEntry_self {α : Type} (m : List (String × α)) (k : String) (v d : α) :
    lookupD (setEntry m k v) k d = v := by
  induction m with
  | nil => simp [setEntry, lookupD]
  | cons p rest ih =>
    obtain ⟨k', v'⟩ := p
    by_cases h : k' = k
    · simp [setEntry, h, lookupD]
    · simp [setEntry, h, lookupD, ih]

theorem abortedB_none (idx : Nat) : abortedB none idx = false := rfl

theorem streamLoop_step (n fs idx : Nat) (samples : List Int) (abortAt : Option Nat)
    (hfs : 0 < fs) (hcond : fs ≤ samples.length) (hab : abortedB abortAt idx = false) :
    streamLoop (n + 1) samples fs abortAt idx
      = samples.take fs :: streamLoop n (samples.drop fs) fs abortAt (idx + 1) := by
  simp [streamLoop, hfs, hcond, hab]

theorem streamLoop_abort_now (n fs idx : Nat) (samples : List Int) (abortAt : Option Nat)
    (hab : abortedB abortAt idx = true) :
    streamLoop (n + 1) samples fs abortAt idx = [] := by
  simp [streamLoop, hab]

theorem streamLoop_short (n fs idx : Nat) (samples : List Int) (abortAt : Option Nat)
    (hcond : ¬ (0 < fs ∧ fs ≤ samples.length)) :
    streamLoop (n + 1) samples fs abortAt idx = [] := by
  simp [streamLoop, hcond]

theorem streamLoop_none (fs : Nat) (hfs : 0 < fs) :
    ∀ (fuel : Nat) (samples : List Int) (idx : Nat), samples.length ≤ fuel →
      ((streamLoop fuel samples fs none idx).all fun fr => fr.length == fs) = true
      ∧ (streamLoop fuel samples fs none idx).length = samples.length / fs
      ∧ (streamLoop fuel samples fs none idx).flatten =
          samples.take (fs * (samples.length / fs)) := by
  intro fuel
  induction fuel with
  | zero =>
    intro samples idx hle
    have hnil : samples = [] := List.eq_nil_of_length_eq_zero (by omega)
    subst hnil
    simp [streamLoop]
  | succ n ih =>
    intro samples idx hle
    by_cases hcond : fs ≤ samples.length
    · have hq : samples.length / fs = (samples.length - fs) / fs + 1 :=
        Nat.div_eq_sub_div hfs hcond
      have hdlen : (samples.drop fs).length = samples.length - fs := by simp
      obtain ⟨iha, ihl, ihf⟩ := ih (samples.drop fs) (idx + 1) (by omega)
      have htake : (samples.take fs).length = fs := by simp [hcond]
      rw [streamLoop_step n fs idx samples none hfs hcond (abortedB_none idx)]
      refine ⟨?_, ?_, ?_⟩
      · simp [htake, iha]
      · simp only [List.length_cons, ihl, hdlen]
        omega
      · simp only [List.flatten_cons, ihf, hdlen]
        rw [hq, Nat.mul_succ]
        rw [Nat.add_comm (fs * ((samples.length - fs) / fs)) fs, List.take_add]
    · have hz : samples.length / fs = 0 := Nat.div_eq_of_lt (by omega)
      rw [streamLoop_short n fs idx samples none (by omega)]
      simp [hz]

theorem streamLoop_abort (fs : Nat) (hfs : 0 < fs) :
    ∀ (fuel : Nat) (samples : List Int) (idx j : Nat), samples.length ≤ fuel →
      (streamLoop fuel samples fs (some j) idx).length =
        min (j - idx) (samples.length / fs) := by
  intro fuel
  induction fuel with
  | zero =>
    intro samples idx j hle
    have hnil : samples = [] := List.eq_nil_of_length_eq_zero (by omega)
    subst hnil
    simp [streamLoop]
  | succ n ih =>
    intro samples idx j hle
    by_cases hcond : fs ≤ samples.length
    · have hq : samples.length / fs = (samples.length - fs) / fs + 1 :=
        Nat.div_eq_sub_div hfs hcond
      have hdlen : (samples.drop fs).length = samples.length - fs := by simp
      by_cases hab : j ≤ idx
      · rw [streamLoop_abort_now n fs idx samples (some j) (by simp [abortedB, hab])]
        rw [Nat.sub_eq_zero_of_le hab]
        simp
      · rw [streamLoop_step n fs idx samples (some j) hfs hcond (by simp [abortedB]; omega)]
        have := ih (samples.drop fs) (idx + 1) j (by omega)
        simp only [List.length_cons, this, hdlen]
        rw [hq]
        omega
    · have hz : samples.length / fs = 0 := Nat.div_eq_of_lt (by omega)
      rw [streamLoop_short n fs idx samples (some j) (by omega)]
      simp [hz]

/-- Claim C10 (confirmed): `streamToJanus` pushes only complete frames of
exactly `FRAME_SIZE sampleRate = ⌊sampleRate * 0.01⌋` samples (480 at 48 kHz):
every pushed frame has the full frame length, the number of pushed frames is
`⌊length / frameSize⌋`, their concatenation is exactly the corresponding
prefix of the input, and when the input length is not a multiple of the frame
size the trailing remainder is never pushed (strictly fewer samples leave
than arrived). -/
theorem c10_frame_discipline (samples : List Int) (sampleRate : Nat)
    (h100 : 100 ≤ sampleRate) :
    ((streamToJanus samples (FRAME_SIZE sampleRate) none).all
        fun fr => fr.length == FRAME_SIZE sampleRate) = true
    ∧ (streamToJanus samples (FRAME_SIZE sampleRate) none).length
        = samples.length / FRAME_SIZE sampleRate
    ∧ (streamToJanus samples (FRAME_SIZE sampleRate) none).flatten
        = samples.take (FRAME_SIZE sampleRate * (samples.length / FRAME_SIZE sampleRate))
    ∧ (¬ (FRAME_SIZE sampleRate ∣ samples.length) →
        (streamToJanus samples (FRAME_SIZE sampleRate) none).flatten.length < samples.length)
    ∧ FRAME_SIZE 48000 = 480 := by
  have hfs : 0 < FRAME_SIZE sampleRate := by
    unfold FRAME_SIZE
    omega
  unfold streamToJanus
  obtain ⟨ha, hl, hf⟩ :=
    streamLoop_none (FRAME_SIZE sampleRate) hfs samples.length samples 0 (Nat.le_refl _)
  refine ⟨ha, hl, hf, ?_, by decide⟩
  intro hndvd
  rw [hf, List.length_take]
  have hmod : FRAME_SIZE sampleRate * (samples.length / FRAME_SIZE sampleRate)
      + samples.length % FRAME_SIZE sampleRate = samples.length := Nat.div_add_mod _ _
  have hm0 : samples.length % FRAME_SIZE sampleRate ≠ 0 := by
    intro h0
    exact hndvd (Nat.dvd_iff_mod_eq_zero.mpr h0)
  omega

/-- Witness for C10 at `samples = [1, 2, 3, 4, 5]`, 200 Hz (frame size 2). -/
theorem c10_frame_discipline_witness :
    (100 ≤ 200)
    ∧ (((streamToJanus [1, 2, 3, 4, 5] (FRAME_SIZE 200) none).all
          fun fr => fr.length == FRAME_SIZE 200) = true
      ∧ (streamToJanus [1, 2, 3, 4, 5] (FRAME_SIZE 200) none).length
          = ([1, 2, 3, 4, 5] : List Int).length / FRAME_SIZE 200
      ∧ (streamToJanus [1, 2, 3, 4, 5] (FRAME_SIZE 200) none).flatten
          = ([1, 2, 3, 4, 5] : List Int).take
              (FRAME_SIZE 200 * (([1, 2, 3, 4, 5] : List Int).length / FRAME_SIZE 200))
      ∧ (¬ (FRAME_SIZE 200 ∣ ([1, 2, 3, 4, 5] : List Int).length) →
          (streamToJanus [1, 2, 3, 4, 5] (FRAME_SIZE 200) none).flatten.length
            < ([1, 2, 3, 4, 5] : List Int).length)
      ∧ FRAME_SIZE 48000 = 480) :=
  ⟨by decide, c10_frame_discipline [1, 2, 3, 4, 5] 200 (by decide)⟩

/-- Claim C6 (confirmed): a frame whose peak absolute amplitude is below the
configured silence threshold leaves the entire plugin state unchanged: no
buffer gains the frame, the pending silence timer is neither cleared nor
restarted, and no volume window is modified. -/
theorem c6_silence_filtering (s : PluginState) (u : String) (f : List Int)
    (h : peakAbs f < s.silenceThreshold) :
    onAudioData s u f = s := by
  by_cases hp : s.isProcessingAudio
  · simp [onAudioData, hp]
  · simp [onAudioData, hp, h]

/-- Witness for C6: a quiet two-sample frame against the default threshold 50,
in a state with a pending timer and a non-empty buffer. -/
theorem c6_silence_filtering_witness :
    (peakAbs [3, -2] < c6WitState.silenceThreshold)
    ∧ onAudioData c6WitState "spk" [3, -2] = c6WitState :=
  ⟨by decide, c6_silence_filtering c6WitState "spk" [3, -2] (by decide)⟩

/-- Claim C3 is refuted at a concrete input: while the system is speaking,
a single non-silent frame `[100, 200]` is BOTH appended to the speaker's PCM
buffer (line 176 runs before the speaking branch) AND pushed into that
speaker's volume window by the interruption check, so the two paths are not
mutually exclusive for one frame. -/
theorem c3_counterexample :
    (¬ peakAbs [100, 200] < c3CexState.silenceThreshold)
    ∧ c3CexState.isSpeaking = true
    ∧ lookupD (onAudioData c3CexState "spk" [100, 200]).pcmBuffers "spk" [] = [[100, 200]]
    ∧ lookupD (onAudioData c3CexState "spk" [100, 200]).volumeBuffers "spk" []
        = [some ((100 : ℚ) / 32768)] := by
  have hamp : maxAmplitude [100, 200] = some ((100 : ℚ) / 32768) := by
    norm_num [maxAmplitude, jsMaxList, int16Abs]
  have hno : exceedsThreshold (avgVolume (newVolumeWindow [] [100, 200])) = false := by
    simp only [newVolumeWindow, hamp, avgVolume, jsAdd, exceedsThreshold, List.nil_append,
      List.length_cons, List.length_nil, List.foldl_cons, List.foldl_nil, Option.map_some]
    norm_num [jsAdd]
  have hmain : onAudioData c3CexState "spk" [100, 200] =
      { c3CexState with
          pcmBuffers := [("spk", [[100, 200]])],
          volumeBuffers := [("spk", newVolumeWindow [] [100, 200])] } := by
    simp [onAudioData, c3CexState, pushChunk, setEntry, lookupD, peakAbs, hno]
  refine ⟨by decide, rfl, ?_, ?_⟩
  · rw [hmain]
    simp [lookupD, c3CexState]
  · rw [hmain]
    simp [lookupD, c3CexState, newVolumeWindow, hamp]

/-- Claim C3 as amended (the counterexample forces the buffering conjunct to
go): for a non-silent frame handled while not processing, the frame is ALWAYS
appended to that speaker's PCM buffer and the pending silence timer is always
cleared; when the system is not speaking the timer is restarted for that
speaker and no volume window is touched, and when it is speaking the timer is
left cleared (not restarted) and the same frame is additionally pushed into
that speaker's volume window (which is cleared if the windowed average then
exceeds the threshold). -/
theorem c3_frame_paths_amended (s : PluginState) (u : String) (f : List Int)
    (hproc : s.isProcessingAudio = false)
    (hloud : ¬ peakAbs f < s.silenceThreshold) :
    lookupD (onAudioData s u f).pcmBuffers u [] = lookupD s.pcmBuffers u [] ++ [f]
    ∧ (s.isSpeaking = false →
        (onAudioData s u f).userSpeakingTimer = some u
        ∧ (onAudioData s u f).volumeBuffers = s.volumeBuffers)
    ∧ (s.isSpeaking = true →
        (onAudioData s u f).userSpeakingTimer = none
        ∧ lookupD (onAudioData s u f).volumeBuffers u []
            = (if exceedsThreshold
                  (avgVolume (newVolumeWindow (lookupD s.volumeBuffers u []) f))
               then [] else newVolumeWindow (lookupD s.volumeBuffers u []) f)) := by
  cases hsp : s.isSpeaking with
  | false =>
    refine ⟨?_, fun _ => ⟨?_, ?_⟩, fun htr => absurd htr (by simp [hsp])⟩ <;>
      simp [onAudioData, hproc, hloud, hsp, pushChunk, lookupD_setEntry_self]
  | true =>
    cases hA : exceedsThreshold (avgVolume (newVolumeWindow (lookupD s.volumeBuffers u []) f))
    case true =>
      cases hctl : s.ttsAbortCtrl <;>
        refine ⟨?_, fun hfa => absurd hfa (by simp [hsp]), fun _ => ⟨?_, ?_⟩⟩ <;>
          simp [onAudioData, hproc, hloud, hsp, hA, hctl, pushChunk, lookupD_setEntry_self]
    case false =>
      refine ⟨?_, fun hfa => absurd hfa (by simp [hsp]), fun _ => ⟨?_, ?_⟩⟩ <;>
        simp [onAudioData, hproc, hloud, hsp, hA, pushChunk, lookupD_setEntry_self]

/-- Witness for C3's amended theorem: the loud frame `[700]` in the idle
witness state. -/
theorem c3_frame_paths_amended_witness :
    (c3WitState.isProcessingAudio = false ∧ ¬ peakAbs [700] < c3WitState.silenceThreshold)
    ∧ (lookupD (onAudioData c3WitState "spk" [700]).pcmBuffers "spk" []
          = lookupD c3WitState.pcmBuffers "spk" [] ++ [[700]]
      ∧ (c3WitState.isSpeaking = false →
          (onAudioData c3WitState "spk" [700]).userSpeakingTimer = some "spk"
          ∧ (onAudioData c3WitState "spk" [700]).volumeBuffers = c3WitState.volumeBuffers)
      ∧ (c3WitState.isSpeaking = true →
          (onAudioData c3WitState "spk" [700]).userSpeakingTimer = none
          ∧ lookupD (onAudioData c3WitState "spk" [700]).volumeBuffers "spk" []
              = (if exceedsThreshold
                    (avgVolume (newVolumeWindow (lookupD c3WitState.volumeBuffers "spk" []) [700]))
                 then [] else newVolumeWindow (lookupD c3WitState.volumeBuffers "spk" []) [700]))) :=
  ⟨⟨by decide, by decide⟩,
    c3_frame_paths_amended c3WitState "spk" [700] (by decide) (by decide)⟩

/-- Claim C1 is refuted at a concrete input: in a playback-in-progress state
whose window holds five near-full peaks, the frame `[0, 32767]` makes the
spec's trigger fire (pushing the WHOLE frame's normalized peak `32767/32768`
lifts the windowed average above 0.05), yet the code pushes only the peak of
the FIRST HALF of the frame (`0`), so no interruption happens: the controller
is not aborted, the speaking flag stays set, and the window is not cleared. -/
theorem c1_counterexample :
    exceedsThreshold
        (avgVolume (specC1Window (lookupD c1CexState.volumeBuffers "spk" []) [0, 32767])) = true
    ∧ (¬ peakAbs [0, 32767] < c1CexState.silenceThreshold)
    ∧ c1CexState.isSpeaking = true
    ∧ c1CexState.ttsAbortCtrl = some false
    ∧ (onAudioData c1CexState "spk" [0, 32767]).ttsAbortCtrl = some false
    ∧ (onAudioData c1CexState "spk" [0, 32767]).isSpeaking = true
    ∧ lookupD (onAudioData c1CexState "spk" [0, 32767]).volumeBuffers "spk" [] ≠ [] := by
  have hamp : maxAmplitude [0, 32767] = some 0 := by
    norm_num [maxAmplitude, jsMaxList, int16Abs]
  have hno : exceedsThreshold (avgVolume (newVolumeWindow
      [some ((32767 : ℚ) / 32768), some ((32767 : ℚ) / 32768), some ((32767 : ℚ) / 32768),
       some ((32767 : ℚ) / 32768), some ((32767 : ℚ) / 32768)] [0, 32767])) = false := by
    simp only [newVolumeWindow, hamp, avgVolume, jsAdd, exceedsThreshold, List.cons_append,
      List.nil_append, List.length_cons, List.length_nil, List.foldl_cons, List.foldl_nil,
      Option.map_some]
    norm_num [jsAdd]
  have hmain : onAudioData c1CexState "spk" [0, 32767] =
      { c1CexState with
          pcmBuffers := [("spk", [[0, 32767]])],
          volumeBuffers := [("spk",
            newVolumeWindow [some ((32767 : ℚ) / 32768), some ((32767 : ℚ) / 32768),
              some ((32767 : ℚ) / 32768), some ((32767 : ℚ) / 32768),
              some ((32767 : ℚ) / 32768)] [0, 32767])] } := by
    simp [onAudioData, hno, pushChunk, setEntry, lookupD, peakAbs,
      show c1CexState.isProcessingAudio = false from rfl,
      show c1CexState.isSpeaking = true from rfl, c1CexState]
  refine ⟨?_, by decide, rfl, rfl, ?_, ?_, ?_⟩
  · simp only [c1CexState, lookupD, specC1Window, avgVolume, jsAdd, exceedsThreshold,
      peakAbs, List.foldl_cons, List.foldl_nil, List.cons_append, List.nil_append,
      List.length_cons, List.length_nil, Option.map_some, if_true, if_false]
    norm_num [jsAdd]
  · rw [hmain]
    rfl
  · rw [hmain]
    rfl
  · rw [hmain]
    simp [c1CexState, lookupD, newVolumeWindow, hamp]

/-- Claim C1 as amended (the counterexample forces the trigger to be the
code's computation): for a non-silent frame handled while speaking and not
processing, if pushing the code's `maxAmplitude` (the Int16-wrapped peak of
the FIRST HALF of the frame, normalized; `-Infinity` for frames shorter than
two samples) makes the window sum divided by the fixed capacity 100 exceed
0.05, and a playback cancellation token is live, then the speaker's volume
window is cleared, the token is aborted, the speaking flag becomes false, and
a `streamToJanus` call whose signal aborts with `j` of its frames pushed
stops there, pushing strictly fewer than all its frames. -/
theorem c1_interruption_amended (s : PluginState) (u : String) (f : List Int)
    (samples : List Int) (fs j : Nat)
    (hproc : s.isProcessingAudio = false)
    (hloud : ¬ peakAbs f < s.silenceThreshold)
    (hspeak : s.isSpeaking = true)
    (htok : s.ttsAbortCtrl = some false)
    (havg : exceedsThreshold
        (avgVolume (newVolumeWindow (lookupD s.volumeBuffers u []) f)) = true)
    (hfs : 0 < fs) (hj : j < samples.length / fs) :
    lookupD (onAudioData s u f).volumeBuffers u [] = []
    ∧ (onAudioData s u f).ttsAbortCtrl = some true
    ∧ (onAudioData s u f).isSpeaking = false
    ∧ (streamToJanus samples fs (some j)).length = j
    ∧ (streamToJanus samples fs (some j)).length < samples.length / fs := by
  have hstream : (streamToJanus samples fs (some j)).length = j := by
    unfold streamToJanus
    rw [streamLoop_abort fs hfs samples.length samples 0 j (Nat.le_refl _)]
    omega
  have hmain : onAudioData s u f =
      { s with userSpeakingTimer := none,
               pcmBuffers := pushChunk s.pcmBuffers u f,
               volumeBuffers := setEntry s.volumeBuffers u [],
               ttsAbortCtrl := some true, isSpeaking := false } := by
    simp [onAudioData, hproc, hloud, hspeak, havg, htok]
  refine ⟨?_, ?_, ?_, hstream, ?_⟩
  · rw [hmain]
    exact lookupD_setEntry_self s.volumeBuffers u [] []
  · rw [hmain]
  · rw [hmain]
  · rw [hstream]
    exact hj

/-- Witness for C1's amended theorem: the loud frame `[32767, 0]` (whose first
half peaks at `32767`) against the prefilled window, with a two-frame stream
aborted after one frame. -/
theorem c1_interruption_amended_witness :
    (c1WitState.isProcessingAudio = false
      ∧ (¬ peakAbs [32767, 0] < c1WitState.silenceThreshold)
      ∧ c1WitState.isSpeaking = true
      ∧ c1WitState.ttsAbortCtrl = some false
      ∧ exceedsThreshold
          (avgVolume (newVolumeWindow (lookupD c1WitState.volumeBuffers "spk" []) [32767, 0]))
          = true
      ∧ 0 < 1 ∧ 1 < ([0, 0] : List Int).length / 1)
    ∧ (lookupD (onAudioData c1WitState "spk" [32767, 0]).volumeBuffers "spk" [] = []
      ∧ (onAudioData c1WitState "spk" [32767, 0]).ttsAbortCtrl = some true
      ∧ (onAudioData c1WitState "spk" [32767, 0]).isSpeaking = false
      ∧ (streamToJanus [0, 0] 1 (some 1)).length = 1
      ∧ (streamToJanus [0, 0] 1 (some 1)).length < ([0, 0] : List Int).length / 1) := by
  have havg : exceedsThreshold
      (avgVolume (newVolumeWindow (lookupD c1WitState.volumeBuffers "spk" []) [32767, 0]))
      = true := by
    simp only [c1WitState, lookupD, newVolumeWindow, maxAmplitude, jsMaxList, int16Abs,
      avgVolume, jsAdd, exceedsThreshold, List.map_cons, List.map_nil, List.take,
      List.cons_append, List.nil_append, List.length_cons, List.length_nil,
      List.foldl_cons, List.foldl_nil, Option.map_some]
    norm_num [jsAdd]
  exact ⟨⟨rfl, by decide, rfl, rfl, havg, by decide, by decide⟩,
    c1_interruption_amended c1WitState "spk" [32767, 0] [0, 0] 1 1
      rfl (by decide) rfl rfl havg (by decide) (by decide)⟩

/-! ## Response-pipeline helpers -/

theorem wav_length (pcm : List Int) (R : Nat) :
    (convertPcmToWavInMemory pcm R).length = 44 + 2 * pcm.length := by
  rw [wav_flat]
  simp only [List.length_cons, flatten_i16le_length]
  omega

/-- Claim C7 is refuted at a concrete input: the text `"ok bob"` contains the
agent name `"bob"` (case-insensitive), yet the pipeline does NOT proceed to
response generation: `handleUserMessage` runs the deterministic ignore filter
BEFORE the respond decision, and `"ok bob"` (shorter than 8 characters,
containing the filler word `"k"`) is dropped there, so neither the respond
decision nor generation is ever reached. -/
theorem c7_counterexample :
    jsIncludes (jsToLower "ok bob") (jsToLower "bob") = true
    ∧ _shouldIgnore "ok bob" = true
    ∧ (handleUserMessage "ok bob" "bob" "RESPOND" "hello").respondEvaluated = false
    ∧ (handleUserMessage "ok bob" "bob" "RESPOND" "hello").generateCalled = false := by
  decide

/-- Claim C7 as amended (restricted to texts that pass the ignore filter):
for every recognized text not dropped by `_shouldIgnore`, if the text contains
the agent's name (case-insensitive substring after lowercasing both sides) the
respond decision is `true` without invoking the classifier and the pipeline
proceeds to generation; otherwise the classifier is invoked, its answer
decides (`true` exactly for `RESPOND`), and `IGNORE`, `STOP` or any
unrecognized value yields no generation. -/
theorem c7_name_shortcircuit_amended (text name cls gen : String)
    (hig : _shouldIgnore text = false) :
    (jsIncludes (jsToLower text) (jsToLower name) = true →
        _shouldRespond text name cls = (true, false)
        ∧ (handleUserMessage text name cls gen).generateCalled = true
        ∧ (handleUserMessage text name cls gen).classifierCalled = false)
    ∧ (jsIncludes (jsToLower text) (jsToLower name) = false →
        ((_shouldRespond text name cls).2 = true
          ∧ ((_shouldRespond text name cls).1 = true ↔ cls = "RESPOND")
          ∧ (cls ≠ "RESPOND" →
              (handleUserMessage text name cls gen).generateCalled = false))) := by
  constructor
  · intro hmention
    refine ⟨?_, ?_, ?_⟩ <;> simp [_shouldRespond, handleUserMessage, hig, hmention]
  · intro hnomention
    by_cases h1 : cls = "RESPOND"
    · refine ⟨?_, ?_, fun hcontra => absurd h1 hcontra⟩ <;>
        simp [_shouldRespond, hnomention, h1]
    · by_cases h2 : cls = "IGNORE"
      · refine ⟨?_, ?_, fun _ => ?_⟩ <;>
          simp [_shouldRespond, handleUserMessage, hig, hnomention, h1, h2]
      · by_cases h3 : cls = "STOP"
        · refine ⟨?_, ?_, fun _ => ?_⟩ <;>
            simp [_shouldRespond, handleUserMessage, hig, hnomention, h1, h2, h3]
        · refine ⟨?_, ?_, fun _ => ?_⟩ <;>
            simp [_shouldRespond, handleUserMessage, hig, hnomention, h1, h2, h3]

/-- Witness for C7's amended theorem at `text = "hey bob"`, `name = "Bob"`,
classifier answer `"IGNORE"`. -/
theorem c7_name_shortcircuit_amended_witness :
    _shouldIgnore "hey bob" = false
    ∧ ((jsIncludes (jsToLower "hey bob") (jsToLower "Bob") = true →
          _shouldRespond "hey bob" "Bob" "IGNORE" = (true, false)
          ∧ (handleUserMessage "hey bob" "Bob" "IGNORE" "hi").generateCalled = true
          ∧ (handleUserMessage "hey bob" "Bob" "IGNORE" "hi").classifierCalled = false)
      ∧ (jsIncludes (jsToLower "hey bob") (jsToLower "Bob") = false →
          ((_shouldRespond "hey bob" "Bob" "IGNORE").2 = true
            ∧ ((_shouldRespond "hey bob" "Bob" "IGNORE").1 = true ↔ ("IGNORE" : String) = "RESPOND")
            ∧ (("IGNORE" : String) ≠ "RESPOND" →
                (handleUserMessage "hey bob" "Bob" "IGNORE" "hi").generateCalled = false)))) :=
  ⟨by decide, c7_name_shortcircuit_amended "hey bob" "Bob" "IGNORE" "hi" (by decide)⟩

/-- Claim C8 (confirmed): when the transcription oracle returns an empty or
whitespace-only string for a flushed non-empty buffer, `processAudio` stops
with no downstream call: `handleUserMessage` is never entered (so no
ignore-filter evaluation, no respond decision, no memory persistence and no
generation occur), no TTS text is enqueued, and the call returns normally. -/
theorem c8_empty_transcription (chunks : List (List Int))
    (stt char cls gen : String)
    (hne : chunks ≠ []) (hstt : jsTrim stt = "") :
    processAudio chunks stt char cls gen =
      { flushedChunks := chunks.length,
        wavLen := 44 + 2 * chunks.flatten.length,
        transcribeCalled := true, hum := none, speakTextCalled := false } := by
  have hne' : chunks.isEmpty = false := by
    simp [List.isEmpty_iff, hne]
  simp [processAudio, hne', hstt, wav_length]

/-- Witness for C8 at the whitespace-only transcription `"  "`. -/
theorem c8_empty_transcription_witness :
    (([[1]] : List (List Int)) ≠ [] ∧ jsTrim "  " = "")
    ∧ processAudio [[1]] "  " "bob" "RESPOND" "hi" =
        { flushedChunks := ([[1]] : List (List Int)).length,
          wavLen := 44 + 2 * ([[1]] : List (List Int)).flatten.length,
          transcribeCalled := true, hum := none, speakTextCalled := false } :=
  ⟨⟨by decide, by decide⟩,
    c8_empty_transcription [[1]] "  " "bob" "RESPOND" "hi" (by decide) (by decide)⟩

/-- Claim C5 (confirmed): enqueueing "a", "b", "c" sequentially from IDLE,
with synthesis and transcoding succeeding and no cancellation, plays the
items to the transport strictly in enqueue order a, b, c with exactly one
drain task launched, and at every traversed state the speaking flag is false
only when the queue is empty and no item is in flight (so IDLE is re-entered
only after the queue empties). -/
theorem c5_queue_ordering :
    c5Final.played = ["a", "b", "c"]
    ∧ c5Final.speaking = false
    ∧ c5Final.queue = []
    ∧ c5Final.current = none
    ∧ c5Final.drainsStarted = 1
    ∧ (c5Trace.all fun st => st.speaking || (st.queue.isEmpty && st.current.isNone)) = true := by
  decide

/-- Claim C9 (confirmed): if synthesis or transcoding fails for a queued item
(missing API key, failed HTTP call, or non-zero transcoder exit), the drain
loop catches the error and continues: in the absence of cancellation every
queued item is attempted in order, exactly the successful ones are played,
and the loop always runs to completion, clearing the speaking flag — one
item's failure never aborts the rest of the queue and never escapes. -/
theorem c9_failure_isolation (queue : List String) (envs : List ItemEnv)
    (hno : ∀ e ∈ envs, e.abortedBeforeStream = false ∧ e.abortedAfterStream = false) :
    (processTtsQueue queue envs).attempted = queue
    ∧ (processTtsQueue queue envs).speakingCleared = true
    ∧ (processTtsQueue queue envs).played = playedExpected queue envs := by
  induction queue generalizing envs with
  | nil => simp [processTtsQueue, playedExpected]
  | cons t rest ih =>
    cases envs with
    | nil =>
      obtain ⟨ih1, ih2, ih3⟩ := ih [] (by simp)
      simp [processTtsQueue, elevenLabsTts, convertMp3ToPcm, itemSucceeds, playedExpected,
        defaultItemEnv, ih1, ih2, ih3]
    | cons e es =>
      obtain ⟨ih1, ih2, ih3⟩ := ih es (fun x hx => hno x (by simp [hx]))
      obtain ⟨hb, ha⟩ := hno e (by simp)
      by_cases h1 : e.apiKeyPresent <;> by_cases h2 : e.httpOk <;>
        by_cases h3 : e.ffmpegExitCode = 0 <;>
          simp [processTtsQueue, elevenLabsTts, convertMp3ToPcm, itemSucceeds, playedExpected,
            h1, h2, h3, hb, ha, ih1, ih2, ih3]

/-- Witness for C9 at the queue `["a", "b", "c"]` where item "b" lacks the
API key and item "c" hits a non-zero transcoder exit: all three are
attempted, only "a" is played, and the drain still clears the flag. -/
theorem c9_failure_isolation_witness :
    (∀ e ∈ [defaultItemEnv, { defaultItemEnv with apiKeyPresent := false },
        { defaultItemEnv with ffmpegExitCode := 1 }],
      e.abortedBeforeStream = false ∧ e.abortedAfterStream = false)
    ∧ ((processTtsQueue ["a", "b", "c"] [defaultItemEnv,
          { defaultItemEnv with apiKeyPresent := false },
          { defaultItemEnv with ffmpegExitCode := 1 }]).attempted = ["a", "b", "c"]
      ∧ (processTtsQueue ["a", "b", "c"] [defaultItemEnv,
          { defaultItemEnv with apiKeyPresent := false },
          { defaultItemEnv with ffmpegExitCode := 1 }]).speakingCleared = true
      ∧ (processTtsQueue ["a", "b", "c"] [defaultItemEnv,
          { defaultItemEnv with apiKeyPresent := false },
          { defaultItemEnv with ffmpegExitCode := 1 }]).played =
          playedExpected ["a", "b", "c"] [defaultItemEnv,
            { defaultItemEnv with apiKeyPresent := false },
            { defaultItemEnv with ffmpegExitCode := 1 }]) :=
  ⟨by decide,
    c9_failure_isolation ["a", "b", "c"] [defaultItemEnv,
      { defaultItemEnv with apiKeyPresent := false },
      { defaultItemEnv with ffmpegExitCode := 1 }] (by decide)⟩

/-! ## Event-loop model helpers (claim C2) -/

theorem speakTextLaunch_paTasks (s : C2Sys) (i : Nat) :
    (speakTextLaunch s i).paTasks = s.paTasks := by
  unfold speakTextLaunch
  split
  · rfl
  · cases hd : s.drain <;> cases hq : s.ttsQueue <;> simp

theorem speakTextLaunch_procFlag (s : C2Sys) (i : Nat) :
    (speakTextLaunch s i).procFlag = s.procFlag := by
  unfold speakTextLaunch
  split
  · rfl
  · cases hd : s.drain <;> cases hq : s.ttsQueue <;> simp

/-- Claim C2 as amended (the counterexample forces the scope of the mutual
exclusion down to the transcribe/respond stages): while the global processing
flag is true `onAudioData` ignores its input entirely, and in every reachable
event-loop state at most one `processAudio` task is in its
transcribe-or-respond region, with the processing flag set whenever one is —
so no second flush can be initiated concurrently and at most one
transcription call is active at a time.  (The flag is cleared before
`speakText`, so synthesis of a finished utterance runs in the background and
is NOT covered by this exclusion; see the counterexample.) -/
theorem c2_processing_gate_amended :
    (∀ (s : PluginState) (u : String) (f : List Int),
        s.isProcessingAudio = true → onAudioData s u f = s)
    ∧ (∀ S : C2Sys, C2Reachable S →
        S.paTasks.length ≤ 1 ∧ (S.paTasks.length = 1 → S.procFlag = true)) := by
  constructor
  · intro s u f h
    simp [onAudioData, h]
  · intro S hreach
    unfold C2Reachable at hreach
    induction hreach with
    | refl => simp [c2Init]
    | @tail b c hsteps hstep ih =>
      obtain ⟨hle, himp⟩ := ih
      cases hstep with
      | frameTimer h1 h2 => exact ⟨hle, himp⟩
      | bargeIn h1 h2 h3 => exact ⟨hle, himp⟩
      | timerFireBusy h1 h2 => exact ⟨hle, himp⟩
      | timerFireFlush h1 h2 =>
        have h0 : b.paTasks.length = 0 := by
          by_contra hne
          have hlen1 : b.paTasks.length = 1 := by omega
          rw [himp hlen1] at h2
          simp at h2
        constructor
        · simp [List.length_append, h0]
        · intro _
          rfl
      | transcribeEmpty pre post i h =>
        rw [h] at hle
        simp only [List.length_append, List.length_cons] at hle
        constructor
        · simp only [List.length_append]
          omega
        · intro hc
          simp only [List.length_append] at hc
          omega
      | transcribeDone pre post i h =>
        rw [h] at hle himp
        simp only [List.length_append, List.length_cons] at hle himp ⊢
        exact ⟨hle, himp⟩
      | respondEmpty pre post i h =>
        rw [h] at hle
        simp only [List.length_append, List.length_cons] at hle
        constructor
        · simp only [List.length_append]
          omega
        · intro hc
          simp only [List.length_append] at hc
          omega
      | respondDone pre post i h =>
        rw [h] at hle
        simp only [List.length_append, List.length_cons] at hle
        constructor
        · rw [speakTextLaunch_paTasks]
          simp only [List.length_append]
          omega
        · intro hc
          rw [speakTextLaunch_paTasks] at hc
          simp only [List.length_append] at hc
          omega
      | synthDone t h => exact ⟨hle, himp⟩
      | transcodeAborted t h ha => exact ⟨hle, himp⟩
      | transcodeClean t h ha => exact ⟨hle, himp⟩
      | streamAborted t h ha => exact ⟨hle, himp⟩
      | streamDoneNext t t' rest h ha hq => exact ⟨hle, himp⟩
      | streamDoneIdle t h ha hq => exact ⟨hle, himp⟩

/-- Witness for C2's amended theorem: the input-ignored conjunct at a
processing state, and the invariant at the reachable initial state. -/
theorem c2_processing_gate_amended_witness :
    (c2WitPluginState.isProcessingAudio = true
      ∧ onAudioData c2WitPluginState "spk" [100] = c2WitPluginState)
    ∧ (c2Init.paTasks.length ≤ 1 ∧ (c2Init.paTasks.length = 1 → c2Init.procFlag = true)) :=
  ⟨⟨rfl, c2_processing_gate_amended.1 c2WitPluginState "spk" [100] rfl⟩,
    c2_processing_gate_amended.2 c2Init Relation.ReflTransGen.refl⟩

/-- Claim C2 is refuted on the event-loop model: the state `c2Bad` is
reachable (frame, silence flush of utterance 0, transcription, reply,
`speakText` launching synthesis, barge-in clearing the flags while the drain
still awaits `elevenLabsTts`, new frame, new silence flush) and in it
utterance 1 is being transcribed while utterance 0 is still being
synthesized — the transcribe-respond-synthesize pipeline of utterance 0 did
not complete before utterance 1 began, because line 392 clears
`isProcessingAudio` before `speakText` and playback runs in the background. -/
theorem c2_counterexample :
    C2Reachable c2Bad
    ∧ c2Bad.paTasks = [(1, PAPhase.transcribing)]
    ∧ c2Bad.drain = DrainPhase.synthesizing 0
    ∧ c2Bad.procFlag = true
    ∧ c2Bad.speakFlag = false := by
  refine ⟨?_, rfl, rfl, rfl, rfl⟩
  unfold C2Reachable
  refine Relation.ReflTransGen.head (C2Step.frameTimer c2Init rfl rfl) ?_
  refine Relation.ReflTransGen.head (C2Step.timerFireFlush _ rfl rfl) ?_
  refine Relation.ReflTransGen.head (C2Step.transcribeDone _ [] [] 0 rfl) ?_
  refine Relation.ReflTransGen.head (C2Step.respondDone _ [] [] 0 rfl) ?_
  refine Relation.ReflTransGen.head (C2Step.bargeIn _ rfl rfl rfl) ?_
  refine Relation.ReflTransGen.head (C2Step.frameTimer _ rfl rfl) ?_
  refine Relation.ReflTransGen.head (C2Step.timerFireFlush _ rfl rfl) ?_
  exact Relation.ReflTransGen.refl
